import Mathlib

/-!
Shallow embedding of the PKCE authorisation core of the `spotifyrs` repository:
`utils` (base64 / sha256 wrappers), `spotify-api/src/authorisation.rs`
(`AuthorisationBuilder`), `spotify-api/src/authorisation/scopes.rs` (`Scopes`),
`spotify-api/src/authorisation/tokens.rs` (`AccessToken`, callback validation,
refresh) and `spotify-api/src/client.rs` (`Client`).

Byte strings are modelled as `List Nat` (each element a `u8` value), Rust
`String`s as Lean `String` or `List Char` (the scope grammar works on
`List Char` so the split/join structure is explicit), and `instant::Instant`
as a `Nat` count of time units since an arbitrary epoch at 0.  External
collaborators (the browser's WebCrypto digest, the HTTP transport) are
passed in as explicit function parameters.
-/

namespace Spotify

/-- The `URL_SAFE` base64 alphabet used by `utils::base64`
(`base64::alphabet::URL_SAFE`): `A-Z a-z 0-9 - _`. -/
def b64Alphabet : List Char :=
  "ABCDEFGHIJKLMNOPQRSTUVWXYZabcdefghijklmnopqrstuvwxyz0123456789-_".data

/-- Character of the base64 alphabet at a 6-bit index. -/
def b64Char (n : Nat) : Char := b64Alphabet.getD n 'A'

/-- `utils::base64` (src/utils/src/lib.rs): URL-safe base64 with `NO_PAD`.
Bytes are consumed in groups of three; a trailing group of one byte yields
two characters and a trailing group of two bytes yields three characters,
with no `=` padding. -/
def base64 : List Nat → List Char
  | [] => []
  | [a] => [b64Char (a / 4), b64Char (a % 4 * 16)]
  | [a, b] => [b64Char (a / 4), b64Char (a % 4 * 16 + b / 16), b64Char (b % 16 * 4)]
  | a :: b :: c :: rest =>
    b64Char (a / 4) :: b64Char (a % 4 * 16 + b / 16) ::
      b64Char (b % 16 * 4 + c / 64) :: b64Char (c % 64) :: base64 rest

/-- `utils::sha256` (src/utils/src/lib.rs) returns the URL-safe no-pad base64
encoding of the SHA-256 digest of `data`.  The digest itself is computed by
the browser's WebCrypto (`crypto.subtle.digest`), an external collaborator,
so it is taken here as an explicit function parameter. -/
def sha256 (digest : List Nat → List Nat) (data : List Nat) : List Char :=
  base64 (digest data)

/-- The UTF-8 bytes of an ASCII string (`str::as_bytes`); every string this
code base hashes or encodes is ASCII, where the bytes are the code points. -/
def strBytes (s : String) : List Nat := s.data.map Char.toNat

/-- Sanity check mirroring `utils::tests::test_sha256`: the base64 rendering
of the well-known SHA-256 digest of the empty string. -/
example :
    base64 [0xe3, 0xb0, 0xc4, 0x42, 0x98, 0xfc, 0x1c, 0x14, 0x9a, 0xfb, 0xf4, 0xc8,
      0x99, 0x6f, 0xb9, 0x24, 0x27, 0xae, 0x41, 0xe4, 0x64, 0x9b, 0x93, 0x4c,
      0xa4, 0x95, 0x99, 0x1b, 0x78, 0x52, 0xb8, 0x55] =
    "47DEQpj8HBSa-_TImW-5JCeuQeRkm5NMpJWZG3hSuFU".data := by decide

/-- The `Scopes` enumeration
(src/spotify-api/src/authorisation/scopes.rs), one variant per documented
Spotify authorisation scope. -/
inductive Scopes
  | AppRemoteControl
  | PlaylistModifyPrivate
  | PlaylistModifyPublic
  | PlaylistReadCollaborative
  | PlaylistReadPrivate
  | Streaming
  | UgcImageUpload
  | UserFollowModify
  | UserFollowRead
  | UserLibraryModify
  | UserLibraryRead
  | UserModifyPlaybackState
  | UserReadCurrentlyPlaying
  | UserReadEmail
  | UserReadPlaybackPosition
  | UserReadPlaybackState
  | UserReadPrivate
  | UserReadRecentlyPlayed
  | UserTopRead
  deriving DecidableEq

/-- The kebab-case identifier of each scope, as produced by
`#[strum(serialize_all = "kebab-case")]` (`AsRefStr`/`Display`). -/
def Scopes.name : Scopes → List Char
  | .AppRemoteControl => "app-remote-control".data
  | .PlaylistModifyPrivate => "playlist-modify-private".data
  | .PlaylistModifyPublic => "playlist-modify-public".data
  | .PlaylistReadCollaborative => "playlist-read-collaborative".data
  | .PlaylistReadPrivate => "playlist-read-private".data
  | .Streaming => "streaming".data
  | .UgcImageUpload => "ugc-image-upload".data
  | .UserFollowModify => "user-follow-modify".data
  | .UserFollowRead => "user-follow-read".data
  | .UserLibraryModify => "user-library-modify".data
  | .UserLibraryRead => "user-library-read".data
  | .UserModifyPlaybackState => "user-modify-playback-state".data
  | .UserReadCurrentlyPlaying => "user-read-currently-playing".data
  | .UserReadEmail => "user-read-email".data
  | .UserReadPlaybackPosition => "user-read-playback-position".data
  | .UserReadPlaybackState => "user-read-playback-state".data
  | .UserReadPrivate => "user-read-private".data
  | .UserReadRecentlyPlayed => "user-read-recently-played".data
  | .UserTopRead => "user-top-read".data

/-- All variants, in declaration order. -/
def Scopes.all : List Scopes :=
  [.AppRemoteControl, .PlaylistModifyPrivate, .PlaylistModifyPublic,
   .PlaylistReadCollaborative, .PlaylistReadPrivate, .Streaming, .UgcImageUpload,
   .UserFollowModify, .UserFollowRead, .UserLibraryModify, .UserLibraryRead,
   .UserModifyPlaybackState, .UserReadCurrentlyPlaying, .UserReadEmail,
   .UserReadPlaybackPosition, .UserReadPlaybackState, .UserReadPrivate,
   .UserReadRecentlyPlayed, .UserTopRead]

/-- `Scopes::from_str` (the `EnumString` derive): maps a kebab-case
identifier back to its variant, `none` for an unrecognised token. -/
def Scopes.ofName (cs : List Char) : Option Scopes :=
  Scopes.all.find? (fun s => s.name == cs)

/-- `String::from_iter(scopes)` / `serialize_scopes::serialize`
(src/spotify-api/src/authorisation/scopes.rs): each scope rendered to its
identifier, joined with single spaces, order preserved. -/
def scopesToString (scope : List Scopes) : List Char :=
  List.intercalate [' '] (scope.map Scopes.name)

/-- `.map(Scopes::from_str).collect::<Result<Vec<_>, _>>()`: maps each token
to a variant, failing the whole collection on the first unrecognised token. -/
def collectScopes : List (List Char) → Option (List Scopes)
  | [] => some []
  | t :: ts =>
    match Scopes.ofName t, collectScopes ts with
    | some s, some rest => some (s :: rest)
    | _, _ => none

/-- `serialize_scopes::deserialize`'s `visit_str`
(src/spotify-api/src/authorisation/scopes.rs): the empty string yields the
empty list, otherwise the string is split on spaces and every token must be
a recognised scope identifier. -/
def deserializeScopes (cs : List Char) : Option (List Scopes) :=
  if cs = [] then some []
  else collectScopes (cs.splitOn ' ')

example : scopesToString [.AppRemoteControl, .PlaylistModifyPrivate] =
    "app-remote-control playlist-modify-private".data := by decide

example : deserializeScopes "app-remote-control playlist-modify-private".data =
    some [.AppRemoteControl, .PlaylistModifyPrivate] := by decide

/-- `AuthorisationBuilder` (src/spotify-api/src/authorisation.rs).  The
`callback_url` is modelled by its rendered string form (the code only ever
uses it via `to_string`/`as_str`/`as_ref` in the parts embedded here). -/
structure AuthorisationBuilder where
  client_id : String
  callback_url : String
  scope : List Scopes
  session_state : String
  code_verifier : String
  deriving DecidableEq

/-- `AuthorisationBuilder::code_verifier` (src/spotify-api/src/authorisation.rs
lines 84–91): rejects input of fewer than 32 or more than 96 bytes, returning
the builder unmodified (`Err(self)`, flag `false`); otherwise stores the
URL-safe base64 encoding of the bytes (`Ok(self)`, flag `true`). -/
def AuthorisationBuilder.code_verifier_set (b : AuthorisationBuilder)
    (state : List Nat) : Bool × AuthorisationBuilder :=
  if state.length < 32 ∨ state.length > 96 then (false, b)
  else (true, { b with code_verifier := String.mk (base64 state) })

/-- `AuthorisationBuilder::authorise_url` (src/spotify-api/src/authorisation.rs
lines 116–135).  Returns the builder after the call together with the ordered
query-pair list appended to `https://accounts.spotify.com/authorize`.  The
six fixed pairs are always appended in order; the `scope` pair is appended —
and `self.scope` overwritten — only inside the `if !scope.is_empty()` block. -/
def AuthorisationBuilder.authorise_url (b : AuthorisationBuilder)
    (digest : List Nat → List Nat) (scope : List Scopes) :
    AuthorisationBuilder × List (String × String) :=
  let pairs : List (String × String) :=
    [("client_id", b.client_id),
     ("response_type", "code"),
     ("redirect_uri", b.callback_url),
     ("state", b.session_state),
     ("code_challenge_method", "S256"),
     ("code_challenge", String.mk (sha256 digest (strBytes b.code_verifier)))]
  if scope.isEmpty then (b, pairs)
  else ({ b with scope := scope }, pairs ++ [("scope", String.mk (scopesToString scope))])

/-- `RefreshToken` (src/spotify-api/src/authorisation/tokens.rs): the refresh
token string bound with the client id it was issued for. -/
structure RefreshToken where
  token : String
  client_id : String
  deriving DecidableEq

/-- `AccessToken` (src/spotify-api/src/authorisation/tokens.rs).  `expires_at`
(an `instant::Instant`) is modelled as time units since an epoch at 0. -/
structure AccessToken where
  token : String
  expires_at : Nat
  scope : List Scopes
  refresh_token : RefreshToken
  deriving DecidableEq

/-- `AccessToken::default` (src/spotify-api/src/authorisation/tokens.rs
lines 121–134): placeholder values with `expires_at = Instant::now()`. -/
def AccessToken.default (now : Nat) : AccessToken :=
  { token := "invalid-access-token"
    expires_at := now
    scope := []
    refresh_token := { token := "invalid-refresh-token", client_id := "invalid-client-id" } }

/-- serde serialization of `AccessToken`: `token` and `expires_at` carry
`#[serde(skip)]`, so the emitted JSON object holds only the `scope` string
(via `serialize_scopes`) and the `refresh_token` structure, in field order. -/
def AccessToken.serialize (t : AccessToken) : String :=
  "\x7b\"scope\":\"" ++ String.mk (scopesToString t.scope) ++
    "\",\"refresh_token\":\x7b\"token\":\"" ++ t.refresh_token.token ++
    "\",\"client_id\":\"" ++ t.refresh_token.client_id ++ "\"\x7d\x7d"

/-- `instant::Instant::checked_sub`: `none` when the duration reaches back
before the epoch. -/
def checkedSub (t d : Nat) : Option Nat :=
  if d ≤ t then some (t - d) else none

/-- `AccessToken::is_valid_for` (src/spotify-api/src/authorisation/tokens.rs
lines 293–298): `expires_at.checked_sub(duration)` then compare with now;
an underflowing subtraction yields `false`. -/
def AccessToken.is_valid_for (t : AccessToken) (now duration : Nat) : Bool :=
  match checkedSub t.expires_at duration with
  | some valid_until => decide (now < valid_until)
  | none => false

/-- `utils::request::Error` (src/utils/src/request.rs): non-2xx status with
optional body, body deserialization failure, or lower-level transport error. -/
inductive RequestError
  | Status (status : Nat) (body : Option String)
  | Body (body : String)
  | Reqwest (msg : String)
  deriving DecidableEq

/-- The deserialized refresh response (the `Response` struct local to
`AccessToken::refresh`): `access_token` and `expires_in` seconds
(`token_type` is the unit `Bearer` variant and carries no data). -/
structure RefreshResponse where
  access_token : String
  expires_in : Nat
  deriving DecidableEq

/-- The form-encoded body `AccessToken::refresh` POSTs to the token endpoint
(src/spotify-api/src/authorisation/tokens.rs lines 275–279).  Note the source
reads `&self.token` — the access-token field — for the `refresh_token` pair,
while `client_id` comes from `self.refresh_token.client_id`. -/
def AccessToken.refreshRequestBody (t : AccessToken) : List (String × String) :=
  [("grant_type", "refresh_token"),
   ("refresh_token", t.token),
   ("client_id", t.refresh_token.client_id)]

/-- `AccessToken::refresh` (src/spotify-api/src/authorisation/tokens.rs
lines 262–289).  The HTTP transport is the `respond` parameter, mapping the
posted form body to a typed response or a request error.  On success the new
token keeps `refresh_token` and `scope` from `self` and sets
`expires_at = now + expires_in`. -/
def AccessToken.refresh (t : AccessToken) (now : Nat)
    (respond : List (String × String) → Except RequestError RefreshResponse) :
    Except RequestError AccessToken :=
  match respond t.refreshRequestBody with
  | .error e => .error e
  | .ok res =>
    .ok { token := res.access_token
          expires_at := now + res.expires_in
          refresh_token := t.refresh_token
          scope := t.scope }

/-- `CallbackUrlError` (src/spotify-api/src/authorisation/tokens.rs lines
29–40); the two `Mismatch` payloads are flattened to expected/received. -/
inductive CallbackUrlError
  | CodeMissing
  | LoginError (msg : String)
  | StateMismatch (expected received : String)
  | StateMissing
  | UrlMismatch (expected received : String)
  deriving DecidableEq

/-- The callback URL as consumed by `AccessToken::new`: its rendered string
form (`to_string`) and its query pairs (`query_pairs()`), in order. -/
structure CallbackUrl where
  url_string : String
  query : List (String × String)
  deriving DecidableEq

/-- `query_pairs().collect::<HashMap<_, _>>().get(key)`: for a duplicated key
the later pair overwrites the earlier one, so the last occurrence wins. -/
def getQueryParam (q : List (String × String)) (key : String) : Option String :=
  (q.reverse.find? (fun p => p.1 == key)).map Prod.snd

/-- The validation prefix of `AccessToken::new`
(src/spotify-api/src/authorisation/tokens.rs lines 138–172): `error` query
parameter first, then missing `state`, then `state` mismatch against the
builder's `session_state`, then missing `code`, then the `starts_with` check
of the full URL string against the builder's `callback_url`; on success the
extracted `code` is returned (the subsequent token-endpoint POST is the
external exchange and not part of the validation). -/
def validateCallback (state : AuthorisationBuilder) (cb : CallbackUrl) :
    Except CallbackUrlError String :=
  match getQueryParam cb.query "error" with
  | some err => .error (.LoginError err)
  | none =>
    match getQueryParam cb.query "state" with
    | none => .error .StateMissing
    | some received =>
      if received ≠ state.session_state then
        .error (.StateMismatch state.session_state received)
      else
        match getQueryParam cb.query "code" with
        | none => .error .CodeMissing
        | some code =>
          if ¬ cb.url_string.startsWith state.callback_url then
            .error (.UrlMismatch state.callback_url cb.url_string)
          else
            .ok code

/-- `Client` (src/spotify-api/src/client.rs): wraps exactly one token. -/
structure Client where
  token : AccessToken
  deriving DecidableEq

/-- Outcome of `Client::get_valid_token_for`, with the client state left
behind in each case; `panic` is the failed `assert!`. -/
inductive TokenOutcome
  | ok (tok : AccessToken) (client : Client)
  | err (e : RequestError) (client : Client)
  | panic (client : Client)
  deriving DecidableEq

/-- `Client::get_valid_token_for` (src/spotify-api/src/client.rs lines
36–42).  If the held token is not valid for `duration`, the source runs
`self.token = std::mem::take(&mut self.token).refresh().await?` — so
`mem::take` first installs `AccessToken::default()` in the client, the
taken token is refreshed, a refresh error propagates with the default still
installed, and on success `assert!(self.token.is_valid_for(duration))`
panics if the refreshed token is still not valid. -/
def Client.get_valid_token_for (c : Client) (now duration : Nat)
    (respond : List (String × String) → Except RequestError RefreshResponse) :
    TokenOutcome :=
  if c.token.is_valid_for now duration then .ok c.token c
  else
    let taken := c.token
    let afterTake : Client := { token := AccessToken.default now }
    match taken.refresh now respond with
    | .error e => .err e afterTake
    | .ok newTok =>
      if newTok.is_valid_for now duration then .ok newTok { token := newTok }
      else .panic { token := newTok }

/-- A concrete builder used to evaluate the operations on explicit input. -/
def cexBuilder : AuthorisationBuilder :=
  { client_id := "id"
    callback_url := "http://localhost/authorised"
    scope := [.AppRemoteControl]
    session_state := "the-state"
    code_verifier := "the-verifier" }

/-- A concrete token whose access token and refresh token differ. -/
def cexAccessToken : AccessToken :=
  { token := "the-access-token"
    expires_at := 100
    scope := []
    refresh_token := { token := "the-refresh-token", client_id := "the-client-id" } }

/-- A concrete token that is already expired at time 5. -/
def cexStaleToken : AccessToken :=
  { token := "stale-access-token"
    expires_at := 0
    scope := []
    refresh_token := { token := "stale-refresh-token", client_id := "stale-client-id" } }

/-- A concrete callback URL carrying both an `error` parameter and the
correct `state`. -/
def cexCallback : CallbackUrl :=
  { url_string := "http://localhost/authorised?error=denied&state=the-state"
    query := [("error", "denied"), ("state", "the-state")] }

/-- Claim C6: `is_valid_for(lookahead)` is true exactly when the current time
is strictly before `expires_at - lookahead` (as an exact integer difference),
and an underflowing subtraction — lookahead reaching back before the epoch —
yields `false` rather than a panic or wraparound. -/
theorem is_valid_for_spec (t : AccessToken) (now d : Nat) :
    (t.is_valid_for now d = true ↔ (now : ℤ) < (t.expires_at : ℤ) - (d : ℤ)) ∧
    (t.expires_at < d → t.is_valid_for now d = false) := by
  constructor
  · by_cases h : d ≤ t.expires_at <;>
      simp [AccessToken.is_valid_for, checkedSub, h] <;> omega
  · intro h
    simp [AccessToken.is_valid_for, checkedSub, Nat.not_le.mpr h]

theorem is_valid_for_spec_witness :
    cexAccessToken.expires_at < 200 ∧ cexAccessToken.is_valid_for 5 200 = false :=
  ⟨by decide, (is_valid_for_spec cexAccessToken 5 200).2 (by decide)⟩

/-- Claim C7: `code_verifier` (the setter) succeeds exactly when the input
length is in [32, 96] bytes, and on rejection the whole builder — every
field, in particular the existing `code_verifier` — is returned unchanged. -/
theorem code_verifier_set_spec (b : AuthorisationBuilder) (v : List Nat) :
    ((b.code_verifier_set v).1 = true ↔ 32 ≤ v.length ∧ v.length ≤ 96) ∧
    ((b.code_verifier_set v).1 = false → b.code_verifier_set v = (false, b)) := by
  constructor
  · simp only [AuthorisationBuilder.code_verifier_set]
    split_ifs with h <;> simp <;> omega
  · simp only [AuthorisationBuilder.code_verifier_set]
    split_ifs with h <;> simp

theorem code_verifier_set_spec_witness :
    ((cexBuilder.code_verifier_set (List.replicate 10 0)).1 = true ↔
      32 ≤ (List.replicate 10 (0 : Nat)).length ∧
        (List.replicate 10 (0 : Nat)).length ≤ 96) ∧
    ((cexBuilder.code_verifier_set (List.replicate 10 0)).1 = false →
      cexBuilder.code_verifier_set (List.replicate 10 0) = (false, cexBuilder)) :=
  code_verifier_set_spec cexBuilder (List.replicate 10 0)

/-- Claim C9: serde serialization of an `AccessToken` omits the
`access_token` (and `expires_at`) fields entirely, so two tokens differing
only there serialize identically — the bearer secret never reaches the
persisted form. -/
theorem serialize_independent_of_access_token (t : AccessToken)
    (tok : String) (e : Nat) :
    AccessToken.serialize { t with token := tok, expires_at := e } =
      AccessToken.serialize t := rfl

/-- Claim C4 counterexample: calling `authorise_url` with an empty `scopes`
argument does not store it — a builder whose stored scope is non-empty keeps
it, where the claim requires the stored scope to become empty. -/
theorem authorise_url_empty_scope_not_stored :
    ¬ ((cexBuilder.authorise_url (fun bytes => bytes) []).1.scope = []) := by
  decide

/-- Claim C4 (amended): the returned query pairs are exactly `client_id`,
`response_type=code`, `redirect_uri`, `state`, `code_challenge_method=S256`,
`code_challenge` in this order, with `scope` appended last only when the
`scopes` argument is non-empty; the `scopes` argument is stored into the
builder only in the non-empty case (an empty argument leaves the stored
scope untouched). -/
theorem authorise_url_spec (b : AuthorisationBuilder)
    (digest : List Nat → List Nat) (scope : List Scopes) :
    (scope = [] → b.authorise_url digest scope =
      (b, [("client_id", b.client_id),
           ("response_type", "code"),
           ("redirect_uri", b.callback_url),
           ("state", b.session_state),
           ("code_challenge_method", "S256"),
           ("code_challenge", String.mk (sha256 digest (strBytes b.code_verifier)))])) ∧
    (scope ≠ [] → b.authorise_url digest scope =
      ({ b with scope := scope },
       [("client_id", b.client_id),
        ("response_type", "code"),
        ("redirect_uri", b.callback_url),
        ("state", b.session_state),
        ("code_challenge_method", "S256"),
        ("code_challenge", String.mk (sha256 digest (strBytes b.code_verifier))),
        ("scope", String.mk (scopesToString scope))])) := by
  constructor <;> intro h <;> simp [AuthorisationBuilder.authorise_url, h]

theorem authorise_url_spec_witness :
    cexBuilder.authorise_url (fun bytes => bytes) [.UserReadEmail] =
      ({ cexBuilder with scope := [.UserReadEmail] },
       [("client_id", cexBuilder.client_id),
        ("response_type", "code"),
        ("redirect_uri", cexBuilder.callback_url),
        ("state", cexBuilder.session_state),
        ("code_challenge_method", "S256"),
        ("code_challenge",
          String.mk (sha256 (fun bytes => bytes) (strBytes cexBuilder.code_verifier))),
        ("scope", String.mk (scopesToString [.UserReadEmail]))]) :=
  (authorise_url_spec cexBuilder (fun bytes => bytes) [.UserReadEmail]).2 (by decide)

/-- Claim C5: for a verifier of 32–96 bytes, `code_verifier` succeeds and the
`code_challenge` rendered in the built authorisation URL (the sixth query
pair) is the URL-safe no-pad base64 of the digest of the bytes of the
URL-safe no-pad base64 of the verifier. -/
theorem code_challenge_spec (b : AuthorisationBuilder) (v : List Nat)
    (digest : List Nat → List Nat) (scope : List Scopes)
    (h1 : 32 ≤ v.length) (h2 : v.length ≤ 96) :
    (b.code_verifier_set v).1 = true ∧
    ((b.code_verifier_set v).2.authorise_url digest scope).2[5]? =
      some ("code_challenge",
        String.mk (base64 (digest (strBytes (String.mk (base64 v)))))) := by
  have hset : b.code_verifier_set v =
      (true, { b with code_verifier := String.mk (base64 v) }) := by
    simp only [AuthorisationBuilder.code_verifier_set]
    rw [if_neg (by omega)]
  refine ⟨by rw [hset], ?_⟩
  rw [hset]
  by_cases hs : scope = [] <;>
    simp [AuthorisationBuilder.authorise_url, hs, sha256]

theorem code_challenge_spec_witness :
    32 ≤ (List.replicate 32 (0 : Nat)).length ∧
    (List.replicate 32 (0 : Nat)).length ≤ 96 ∧
    ((cexBuilder.code_verifier_set (List.replicate 32 0)).1 = true ∧
      ((cexBuilder.code_verifier_set
          (List.replicate 32 0)).2.authorise_url (fun bytes => bytes) []).2[5]? =
        some ("code_challenge",
          String.mk (base64 ((fun bytes => bytes)
            (strBytes (String.mk (base64 (List.replicate 32 0)))))))) :=
  ⟨by decide, by decide,
    code_challenge_spec cexBuilder (List.replicate 32 0) (fun bytes => bytes) []
      (by decide) (by decide)⟩

/-- Claim C1 failing input: the refresh POST body carries the access-token
field (`"the-access-token"`) under the `refresh_token` key, not the stored
refresh token (`"the-refresh-token"`), while `client_id` does come from the
stored refresh-token pair — contradicting the documented refresh-token
grant. -/
theorem refresh_posts_access_token_in_refresh_token_field :
    cexAccessToken.refreshRequestBody =
      [("grant_type", "refresh_token"),
       ("refresh_token", "the-access-token"),
       ("client_id", "the-client-id")] ∧
    cexAccessToken.refresh_token.token = "the-refresh-token" ∧
    ("the-access-token" : String) ≠ "the-refresh-token" := by
  refine ⟨rfl, rfl, by decide⟩

/-- Claim C2 counterexample: with a stale token and a failing transport, the
refresh error is propagated, but the client is left holding
`AccessToken::default()` — installed by `std::mem::take` — which is not the
prior credential, where the claim requires the prior credential to remain. -/
theorem refresh_failure_client_not_left_unchanged :
    Client.get_valid_token_for { token := cexStaleToken } 5 0
        (fun _ => .error (.Reqwest "network down")) =
      .err (.Reqwest "network down") { token := AccessToken.default 5 } ∧
    AccessToken.default 5 ≠ cexStaleToken := by
  refine ⟨rfl, by decide⟩

/-- Claim C2 (amended): when the held credential is not valid for the
expected duration and the refresh attempt fails, the refresh error is
propagated unchanged, and the client is left holding the default placeholder
credential that `std::mem::take` installed — not the prior (now-stale)
credential. -/
theorem refresh_failure_propagates_error_with_default_installed
    (c : Client) (now d : Nat)
    (respond : List (String × String) → Except RequestError RefreshResponse)
    (e : RequestError)
    (hinv : c.token.is_valid_for now d = false)
    (herr : respond c.token.refreshRequestBody = .error e) :
    c.get_valid_token_for now d respond =
      .err e { token := AccessToken.default now } := by
  simp [Client.get_valid_token_for, hinv, AccessToken.refresh, herr]

theorem refresh_failure_propagates_error_witness :
    Client.get_valid_token_for { token := cexStaleToken } 7 0
        (fun _ => .error (.Status 500 none)) =
      .err (.Status 500 none) { token := AccessToken.default 7 } :=
  refresh_failure_propagates_error_with_default_installed
    { token := cexStaleToken } 7 0 (fun _ => .error (.Status 500 none))
    (.Status 500 none) (by decide) rfl

/-- Claim C10: when the held credential is not valid for the expected
duration, the refresh succeeds, but the refreshed credential is still not
valid for that duration, `get_valid_token_for` hits the failed `assert!` —
modelled as the `panic` outcome — instead of returning an error value. -/
theorem refresh_still_invalid_panics (c : Client) (now d : Nat)
    (respond : List (String × String) → Except RequestError RefreshResponse)
    (newTok : AccessToken)
    (hinv : c.token.is_valid_for now d = false)
    (hok : c.token.refresh now respond = .ok newTok)
    (hstill : newTok.is_valid_for now d = false) :
    c.get_valid_token_for now d respond = .panic { token := newTok } := by
  simp [Client.get_valid_token_for, hinv, hok, hstill]

theorem refresh_still_invalid_panics_witness :
    Client.get_valid_token_for { token := cexStaleToken } 5 0
        (fun _ => .ok { access_token := "new-access", expires_in := 0 }) =
      .panic { token := { token := "new-access", expires_at := 5, scope := [],
                          refresh_token := cexStaleToken.refresh_token } } :=
  refresh_still_invalid_panics { token := cexStaleToken } 5 0
    (fun _ => .ok { access_token := "new-access", expires_in := 0 })
    { token := "new-access", expires_at := 5, scope := [],
      refresh_token := cexStaleToken.refresh_token }
    (by decide) rfl (by decide)

/-- Claim C3: callback validation short-circuits in exactly this order: an
`error` parameter yields `LoginError` regardless of `state`; then a missing
`state` yields `StateMissing`; then a `state` different from the persisted
`session_state` yields `StateMismatch{expected, received}`; then a missing
`code` yields `CodeMissing`; then a URL string not starting with the
persisted `callback_url` string yields `UrlMismatch{expected, received}`;
otherwise the extracted `code` is returned. -/
theorem callback_validation_order (state : AuthorisationBuilder) (cb : CallbackUrl) :
    (∀ m, getQueryParam cb.query "error" = some m →
      validateCallback state cb = .error (.LoginError m)) ∧
    (getQueryParam cb.query "error" = none →
      getQueryParam cb.query "state" = none →
      validateCallback state cb = .error .StateMissing) ∧
    (∀ s, getQueryParam cb.query "error" = none →
      getQueryParam cb.query "state" = some s →
      s ≠ state.session_state →
      validateCallback state cb = .error (.StateMismatch state.session_state s)) ∧
    (getQueryParam cb.query "error" = none →
      getQueryParam cb.query "state" = some state.session_state →
      getQueryParam cb.query "code" = none →
      validateCallback state cb = .error .CodeMissing) ∧
    (∀ c, getQueryParam cb.query "error" = none →
      getQueryParam cb.query "state" = some state.session_state →
      getQueryParam cb.query "code" = some c →
      cb.url_string.startsWith state.callback_url = false →
      validateCallback state cb = .error (.UrlMismatch state.callback_url cb.url_string)) ∧
    (∀ c, getQueryParam cb.query "error" = none →
      getQueryParam cb.query "state" = some state.session_state →
      getQueryParam cb.query "code" = some c →
      cb.url_string.startsWith state.callback_url = true →
      validateCallback state cb = .ok c) := by
  refine ⟨?_, ?_, ?_, ?_, ?_, ?_⟩
  · intro m herr
    simp [validateCallback, herr]
  · intro herr hstate
    simp [validateCallback, herr, hstate]
  · intro s herr hstate hne
    simp [validateCallback, herr, hstate, hne]
  · intro herr hstate hcode
    simp [validateCallback, herr, hstate, hcode]
  · intro c herr hstate hcode hurl
    simp [validateCallback, herr, hstate, hcode, hurl]
  · intro c herr hstate hcode hurl
    simp [validateCallback, herr, hstate, hcode, hurl]

theorem callback_validation_order_witness :
    validateCallback cexBuilder cexCallback = .error (.LoginError "denied") :=
  (callback_validation_order cexBuilder cexCallback).1 "denied" (by decide)

theorem scopes_name_ne_nil (s : Scopes) : s.name ≠ [] := by
  cases s <;> decide

theorem scopes_name_no_space (s : Scopes) : ' ' ∉ s.name := by
  cases s <;> decide

theorem ofName_name (s : Scopes) : Scopes.ofName s.name = some s := by
  cases s <;> decide

theorem collectScopes_map_name (l : List Scopes) :
    collectScopes (l.map Scopes.name) = some l := by
  induction l with
  | nil => rfl
  | cons s rest ih => simp [collectScopes, ofName_name, ih]

theorem collectScopes_none {t : List Char} {ts : List (List Char)}
    (hmem : t ∈ ts) (hnone : Scopes.ofName t = none) :
    collectScopes ts = none := by
  induction ts with
  | nil => cases hmem
  | cons hd tl ih =>
    rcases List.mem_cons.mp hmem with rfl | hmem2
    · simp [collectScopes, hnone]
    · cases h : Scopes.ofName hd <;> simp [collectScopes, h, ih hmem2]

/-- Claim C8: serialization joins the scope identifiers with single spaces in
order, the result deserializes back to the same ordered list, the empty
string deserializes to the empty list, and a non-empty string containing any
unrecognised token fails deserialization of the whole collection. -/
theorem scopes_serialization_spec :
    (∀ l : List Scopes, deserializeScopes (scopesToString l) = some l) ∧
    (scopesToString [.AppRemoteControl, .PlaylistModifyPrivate] =
      "app-remote-control playlist-modify-private".data) ∧
    deserializeScopes [] = some [] ∧
    (∀ cs : List Char, cs ≠ [] →
      (∃ t ∈ cs.splitOn ' ', Scopes.ofName t = none) →
      deserializeScopes cs = none) := by
  refine ⟨?_, by decide, rfl, ?_⟩
  · intro l
    match l with
    | [] => rfl
    | s :: rest =>
      have hx : ∀ nm ∈ (s :: rest).map Scopes.name, ' ' ∉ nm := by
        intro nm hnm
        obtain ⟨a, _, rfl⟩ := List.mem_map.mp hnm
        exact scopes_name_no_space a
      have hne : (s :: rest).map Scopes.name ≠ [] := by simp
      have hsplit := List.splitOn_intercalate ((s :: rest).map Scopes.name) ' ' hx hne
      have hcs : List.intercalate [' '] ((s :: rest).map Scopes.name) ≠ [] := by
        intro hc
        rw [hc] at hsplit
        simp [List.splitOn_nil] at hsplit
        exact scopes_name_ne_nil s hsplit.1
      simp only [scopesToString, deserializeScopes]
      rw [if_neg hcs, hsplit, collectScopes_map_name]
  · intro cs hne hex
    obtain ⟨t, hmem, hnone⟩ := hex
    simp only [deserializeScopes]
    rw [if_neg hne]
    exact collectScopes_none hmem hnone

theorem scopes_serialization_spec_witness :
    deserializeScopes (scopesToString [.AppRemoteControl, .PlaylistModifyPrivate]) =
      some [Scopes.AppRemoteControl, Scopes.PlaylistModifyPrivate] ∧
    deserializeScopes "xyz".data = none :=
  ⟨scopes_serialization_spec.1 _,
   scopes_serialization_spec.2.2.2 "xyz".data (by decide)
     ⟨"xyz".data, by decide, by decide⟩⟩

end Spotify
